import Mathlib

/-!
Verification of the exchange-connector core of rtbkit
(`src/common/exchange_connector.h`): the `ExchangeCompatibility` result
structure with its setters, the default compatibility/filter policy, the
two-stage bid-request filter pipeline, and the exchange factory registry.

Shallow embedding: the C++ structure becomes a Lean structure, the mutating
setters become pure state-update functions, and the type-erased
`std::shared_ptr<void> info` payload becomes an `Option I` field for an
arbitrary payload type `I` (a null shared pointer is `none`).
-/

set_option linter.unusedVariables false

namespace RTBKIT

/-- Agent (campaign) configuration descriptor.  Opaque to this core: the
header only forward-declares `class AgentConfig`, so it is modelled as a
carrier with an identity. -/
structure AgentConfig where
  id : Nat
deriving Repr, DecidableEq

/-- Creative descriptor.  Opaque to this core (forward-declared
`class Creative`). -/
structure Creative where
  id : Nat
deriving Repr, DecidableEq

/-- Bid request.  Opaque to this core beyond what concrete exchange
implementations inspect. -/
structure BidRequest where
  id : Nat
deriving Repr, DecidableEq

/-- Embeds `ExchangeConnector::ExchangeCompatibility`
(src/common/exchange_connector.h lines 110-151): an `isCompatible` flag, an
ordered sequence of reason strings (`ML::compact_vector<std::string,1>`),
and a type-erased cached payload (`std::shared_ptr<void> info`), modelled
as `Option I`. -/
structure ExchangeCompatibility (I : Type) where
  isCompatible : Bool
  reasons : List String
  info : Option I
deriving Repr, DecidableEq

variable {I : Type}

/-- The default constructor `ExchangeCompatibility()` : initialises
`isCompatible(false)`; `reasons` and `info` are default-constructed, i.e.
the empty vector and the null shared pointer. -/
def ExchangeCompatibility.mkDefault : ExchangeCompatibility I :=
  { isCompatible := false, reasons := [], info := none }

/-- `JML_IMPLEMENT_OPERATOR_BOOL(isCompatible)` : conversion of the value
to a boolean context yields the `isCompatible` field. -/
def ExchangeCompatibility.toBool (ec : ExchangeCompatibility I) : Bool :=
  ec.isCompatible

/-- `setCompatible()` : `isCompatible = true; reasons.clear();`. -/
def ExchangeCompatibility.setCompatible (ec : ExchangeCompatibility I) :
    ExchangeCompatibility I :=
  { ec with isCompatible := true, reasons := [] }

/-- `setIncompatible()` (no arguments) :
`isCompatible = false; reasons.clear();`. -/
def ExchangeCompatibility.setIncompatible (ec : ExchangeCompatibility I) :
    ExchangeCompatibility I :=
  { ec with isCompatible := false, reasons := [] }

/-- `setIncompatible(const std::string & reason, bool includeReasons)` :
`isCompatible = false; if (includeReasons) reasons.push_back(reason);`. -/
def ExchangeCompatibility.setIncompatibleReason (ec : ExchangeCompatibility I)
    (reason : String) (includeReasons : Bool) : ExchangeCompatibility I :=
  { ec with
      isCompatible := false,
      reasons := if includeReasons then ec.reasons ++ [reason] else ec.reasons }

/-- `setIncompatible(ML::compact_vector<std::string,1> && reasons, bool
includeReasons)` : `isCompatible = false; if (includeReasons) this->reasons
= std::move(reasons);`. -/
def ExchangeCompatibility.setIncompatibleReasons (ec : ExchangeCompatibility I)
    (newReasons : List String) (includeReasons : Bool) : ExchangeCompatibility I :=
  { ec with
      isCompatible := false,
      reasons := if includeReasons then newReasons else ec.reasons }

/-- One call of the `ExchangeCompatibility` mutator interface, used to
quantify over every reachable state of the structure. -/
inductive CompatCall where
  | setCompatible
  | setIncompatibleClear
  | setIncompatibleReason (reason : String) (includeReasons : Bool)
  | setIncompatibleReasons (reasons : List String) (includeReasons : Bool)
deriving Repr, DecidableEq

/-- Apply one mutator call to a state. -/
def applyCall (ec : ExchangeCompatibility I) : CompatCall → ExchangeCompatibility I
  | .setCompatible => ec.setCompatible
  | .setIncompatibleClear => ec.setIncompatible
  | .setIncompatibleReason r inc => ec.setIncompatibleReason r inc
  | .setIncompatibleReasons rs inc => ec.setIncompatibleReasons rs inc

/-- Apply a sequence of mutator calls, left to right. -/
def runCalls (ec : ExchangeCompatibility I) (calls : List CompatCall) :
    ExchangeCompatibility I :=
  calls.foldl applyCall ec

/-- Modelled from the spec: the body of the default (non-overridden)
`ExchangeConnector::getCampaignCompatibility` lives in
exchange_connector.cc, which is not part of the sources here; the spec
states the default policy "returns fully compatible with no reasons and
empty cache". -/
def defaultGetCampaignCompatibility (I : Type) (config : AgentConfig)
    (includeReasons : Bool) : ExchangeCompatibility I :=
  ExchangeCompatibility.mkDefault.setCompatible

/-- Modelled from the spec: the body of the default (non-overridden)
`ExchangeConnector::getCreativeCompatibility` lives in
exchange_connector.cc, which is not part of the sources here; same default
policy as for campaigns, scoped to one creative. -/
def defaultGetCreativeCompatibility (I : Type) (creative : Creative)
    (includeReasons : Bool) : ExchangeCompatibility I :=
  ExchangeCompatibility.mkDefault.setCompatible

/-- Modelled from the spec: the body of the default
`ExchangeConnector::bidRequestPreFilter` lives in exchange_connector.cc,
absent here; per the header documentation and the spec, "the default
implementation will return true". -/
def defaultBidRequestPreFilter (I : Type) (request : BidRequest)
    (config : AgentConfig) (info : Option I) : Bool :=
  true

/-- Modelled from the spec: the body of the default
`ExchangeConnector::bidRequestPostFilter` lives in exchange_connector.cc,
absent here; the default implementation returns true. -/
def defaultBidRequestPostFilter (I : Type) (request : BidRequest)
    (config : AgentConfig) (info : Option I) : Bool :=
  true

/-- Modelled from the spec: the body of the default
`ExchangeConnector::bidRequestCreativeFilter` lives in
exchange_connector.cc, absent here; the default implementation returns
true. -/
def defaultBidRequestCreativeFilter (I : Type) (request : BidRequest)
    (config : AgentConfig) (info : Option I) : Bool :=
  true

/-- The three virtual per-bid-request filter methods of an
`ExchangeConnector`, embedded as pure functions of request, agent
configuration and cached payload (the `const void * info` argument). -/
structure FilterPipeline (I : Type) where
  bidRequestPreFilter : BidRequest → AgentConfig → Option I → Bool
  bidRequestPostFilter : BidRequest → AgentConfig → Option I → Bool
  bidRequestCreativeFilter : BidRequest → AgentConfig → Option I → Bool

/-- The pipeline of a connector that overrides none of the three filter
methods. -/
def defaultFilterPipeline (I : Type) : FilterPipeline I :=
  { bidRequestPreFilter := defaultBidRequestPreFilter I
    bidRequestPostFilter := defaultBidRequestPostFilter I
    bidRequestCreativeFilter := defaultBidRequestCreativeFilter I }

/-- Modelled from the spec: the router-side composition of the filter
stages is not in the sources here; the spec states a request/agent pair is
admitted to the auction only if it passes pre-filter AND post-filter. -/
def pairAdmitted (p : FilterPipeline I) (request : BidRequest)
    (config : AgentConfig) (info : Option I) : Bool :=
  p.bidRequestPreFilter request config info &&
    p.bidRequestPostFilter request config info

/-- Modelled from the spec: a creative is admitted only if its
request/agent pair is admitted and it additionally passes the creative
filter. -/
def creativeAdmitted (p : FilterPipeline I) (request : BidRequest)
    (config : AgentConfig) (info : Option I) : Bool :=
  pairAdmitted p request config info &&
    p.bidRequestCreativeFilter request config info

/-- `ExchangeConnector::Factory` : a constructor taking the owning service
and a name, producing a connector.  Owner and connector types are opaque
to the registry. -/
abbrev Factory (O C : Type) := O → String → C

/-- Modelled from the spec: the process-wide factory registry (its storage
and the bodies of `registerFactory` / `create` live in
exchange_connector.cc, absent here); a name-keyed mapping of constructor
functions, embedded as an association list where the most recent
registration for a name wins. -/
abbrev Registry (O C : Type) := List (String × Factory O C)

/-- Modelled from the spec: `ExchangeConnector::registerFactory` associates
a type name with a constructor. -/
def registerFactory {O C : Type} (reg : Registry O C) (exchange : String)
    (factory : Factory O C) : Registry O C :=
  (exchange, factory) :: reg

/-- Look up the factory registered for an exchange-type name. -/
def lookupFactory {O C : Type} : Registry O C → String → Option (Factory O C)
  | [], _ => none
  | (n, f) :: rest, exchangeType =>
      if n = exchangeType then some f else lookupFactory rest exchangeType

/-- The distinct failure reported when `create` is called with an
exchange-type name for which no factory was registered. -/
inductive CreateError where
  | unknownExchangeType (exchangeType : String)
deriving Repr, DecidableEq

/-- Modelled from the spec: `ExchangeConnector::create` looks up the
factory for the given exchange-type name and constructs a new connector
with it, failing with an unknown-exchange-type error when the name is
unregistered. -/
def create {O C : Type} (reg : Registry O C) (exchangeType : String)
    (owner : O) (name : String) : Except CreateError C :=
  match lookupFactory reg exchangeType with
  | none => .error (.unknownExchangeType exchangeType)
  | some f => .ok (f owner name)

/-! ## Helper lemmas -/

/-- Any single mutator call establishes the compatibility invariant
regardless of the incoming state: a compatible result has no reasons. -/
theorem applyCall_invariant (ec : ExchangeCompatibility I) (c : CompatCall) :
    (applyCall ec c).isCompatible = true → (applyCall ec c).reasons = [] := by
  cases c <;>
    simp [applyCall, ExchangeCompatibility.setCompatible,
      ExchangeCompatibility.setIncompatible,
      ExchangeCompatibility.setIncompatibleReason,
      ExchangeCompatibility.setIncompatibleReasons]

/-- The compatibility invariant is preserved by any sequence of mutator
calls. -/
theorem runCalls_invariant (ec : ExchangeCompatibility I)
    (h : ec.isCompatible = true → ec.reasons = []) (calls : List CompatCall) :
    (runCalls ec calls).isCompatible = true → (runCalls ec calls).reasons = [] := by
  induction calls generalizing ec with
  | nil => exact h
  | cons c cs ih => exact ih (applyCall ec c) (applyCall_invariant ec c)

/-- A name not bound in a registry has no factory. -/
theorem lookupFactory_eq_none {O C : Type} (reg : Registry O C) (t : String)
    (h : ∀ pr ∈ reg, pr.1 ≠ t) : lookupFactory reg t = none := by
  induction reg with
  | nil => rfl
  | cons hd tl ih =>
      have hhd : hd.1 ≠ t := h hd (List.mem_cons_self hd tl)
      have htl : ∀ pr ∈ tl, pr.1 ≠ t := fun pr hpr => h pr (List.mem_cons_of_mem hd hpr)
      cases hd with
      | mk n f =>
          simp only [lookupFactory, if_neg hhd]
          exact ih htl

/-! ## Claims -/

/-- Claim C1: for every `ExchangeCompatibility` value reachable by the
default constructor followed by any sequence of mutator calls, if the
reasons sequence is non-empty then `isCompatible` is false. -/
theorem reachable_reasons_nonempty_incompatible (I : Type) (calls : List CompatCall)
    (h : (runCalls (ExchangeCompatibility.mkDefault : ExchangeCompatibility I)
      calls).reasons ≠ []) :
    (runCalls (ExchangeCompatibility.mkDefault : ExchangeCompatibility I)
      calls).isCompatible = false := by
  by_contra hc
  exact h (runCalls_invariant _ (fun _ => rfl) calls
    (by revert hc; cases (runCalls (ExchangeCompatibility.mkDefault :
      ExchangeCompatibility I) calls).isCompatible <;> simp))

/-- Witness for claim C1 at the concrete call sequence that records one
incompatibility reason. -/
theorem reachable_reasons_nonempty_incompatible_witness :
    (runCalls (ExchangeCompatibility.mkDefault : ExchangeCompatibility Unit)
      [CompatCall.setIncompatibleReason "bad size" true]).reasons ≠ [] ∧
    (runCalls (ExchangeCompatibility.mkDefault : ExchangeCompatibility Unit)
      [CompatCall.setIncompatibleReason "bad size" true]).isCompatible = false :=
  ⟨by decide, reachable_reasons_nonempty_incompatible Unit
    [CompatCall.setIncompatibleReason "bad size" true] (by decide)⟩

/-- Claim C4: after calling `setCompatible`, from any prior state, the
value has `isCompatible` true and an empty reasons sequence. -/
theorem setCompatible_spec (ec : ExchangeCompatibility I) :
    ec.setCompatible.isCompatible = true ∧ ec.setCompatible.reasons = [] :=
  ⟨rfl, rfl⟩

/-- Claim C6: with `includeReasons` true, the single-reason form of
`setIncompatible` appends the reason to the existing sequence, and the
sequence form replaces the sequence wholesale; both make `isCompatible`
false. -/
theorem setIncompatible_includeReasons_spec (ec : ExchangeCompatibility I)
    (r : String) (rs : List String) :
    ((ec.setIncompatibleReason r true).isCompatible = false ∧
      (ec.setIncompatibleReason r true).reasons = ec.reasons ++ [r]) ∧
    ((ec.setIncompatibleReasons rs true).isCompatible = false ∧
      (ec.setIncompatibleReasons rs true).reasons = rs) :=
  ⟨⟨rfl, rfl⟩, ⟨rfl, rfl⟩⟩

/-- Claim C9: a default-constructed `ExchangeCompatibility` is
incompatible: `isCompatible` false, empty reasons, null cached info, and
boolean conversion yields false. -/
theorem mkDefault_spec (I : Type) :
    (ExchangeCompatibility.mkDefault : ExchangeCompatibility I).isCompatible = false ∧
    (ExchangeCompatibility.mkDefault : ExchangeCompatibility I).reasons = [] ∧
    (ExchangeCompatibility.mkDefault : ExchangeCompatibility I).info = none ∧
    (ExchangeCompatibility.mkDefault : ExchangeCompatibility I).toBool = false :=
  ⟨rfl, rfl, rfl, rfl⟩

/-- Claim C10: `setIncompatible` with `includeReasons` false (either form)
leaves the reasons sequence unchanged, the no-argument `setIncompatible`
clears it, and no setter modifies the cached info field. -/
theorem setters_frame_spec (ec : ExchangeCompatibility I) (r : String)
    (rs : List String) :
    (ec.setIncompatibleReason r false).reasons = ec.reasons ∧
    (ec.setIncompatibleReasons rs false).reasons = ec.reasons ∧
    ec.setIncompatible.reasons = [] ∧
    ec.setCompatible.info = ec.info ∧
    ec.setIncompatible.info = ec.info ∧
    (∀ b : Bool, (ec.setIncompatibleReason r b).info = ec.info) ∧
    (∀ b : Bool, (ec.setIncompatibleReasons rs b).info = ec.info) :=
  ⟨rfl, rfl, rfl, rfl, rfl, fun _ => rfl, fun _ => rfl⟩

/-- Claim C2: a (request, agent) pair is admitted iff both the pre-filter
and the post-filter return true, and a creative is admitted iff
additionally the creative filter returns true; equivalently, any one of
the relevant filters returning false excludes the pair or creative. -/
theorem pipeline_admission_iff (I : Type) (p : FilterPipeline I)
    (request : BidRequest) (config : AgentConfig) (info : Option I) :
    (pairAdmitted p request config info = true ↔
      (p.bidRequestPreFilter request config info = true ∧
        p.bidRequestPostFilter request config info = true)) ∧
    (creativeAdmitted p request config info = true ↔
      (p.bidRequestPreFilter request config info = true ∧
        p.bidRequestPostFilter request config info = true ∧
        p.bidRequestCreativeFilter request config info = true)) ∧
    (pairAdmitted p request config info = false ↔
      (p.bidRequestPreFilter request config info = false ∨
        p.bidRequestPostFilter request config info = false)) ∧
    (creativeAdmitted p request config info = false ↔
      (p.bidRequestPreFilter request config info = false ∨
        p.bidRequestPostFilter request config info = false ∨
        p.bidRequestCreativeFilter request config info = false)) := by
  simp only [pairAdmitted, creativeAdmitted]
  cases hpre : p.bidRequestPreFilter request config info <;>
    cases hpost : p.bidRequestPostFilter request config info <;>
      cases hcr : p.bidRequestCreativeFilter request config info <;> simp

/-- Claim C3: a connector with no overrides is fully permissive — the
default compatibility evaluators return compatible with empty reasons for
every config, creative and includeReasons value, and the three default
filters return true on every input. -/
theorem default_policy_permissive (I : Type) (config : AgentConfig)
    (creative : Creative) (request : BidRequest) (includeReasons : Bool)
    (info : Option I) :
    (defaultGetCampaignCompatibility I config includeReasons).isCompatible = true ∧
    (defaultGetCampaignCompatibility I config includeReasons).reasons = [] ∧
    (defaultGetCreativeCompatibility I creative includeReasons).isCompatible = true ∧
    (defaultGetCreativeCompatibility I creative includeReasons).reasons = [] ∧
    defaultBidRequestPreFilter I request config info = true ∧
    defaultBidRequestPostFilter I request config info = true ∧
    defaultBidRequestCreativeFilter I request config info = true :=
  ⟨rfl, rfl, rfl, rfl, rfl, rfl, rfl⟩

/-- Counterexample to claim C5 as stated: calling the single-reason
`setIncompatible` with `includeReasons` false on a state that already
holds a reason does not empty the reasons sequence — the code leaves the
existing reasons in place rather than clearing them. -/
theorem setIncompatible_false_not_cleared_counterexample :
    (((ExchangeCompatibility.mkDefault : ExchangeCompatibility Unit).setIncompatibleReason
        "bad size" true).setIncompatibleReason "bad format" false).reasons =
      ["bad size"] ∧
    (((ExchangeCompatibility.mkDefault : ExchangeCompatibility Unit).setIncompatibleReason
        "bad size" true).setIncompatibleReason "bad format" false).reasons ≠ [] := by
  exact ⟨rfl, by decide⟩

/-- Claim C5 amended: for every `setIncompatible` invocation (single-reason
or sequence form) with `includeReasons` false, the result has
`isCompatible` false and its reasons sequence unchanged from before the
call — in particular the reasons stay empty whenever they were empty
beforehand. -/
theorem setIncompatible_excludeReasons_spec (ec : ExchangeCompatibility I)
    (r : String) (rs : List String) :
    ((ec.setIncompatibleReason r false).isCompatible = false ∧
      (ec.setIncompatibleReason r false).reasons = ec.reasons) ∧
    ((ec.setIncompatibleReasons rs false).isCompatible = false ∧
      (ec.setIncompatibleReasons rs false).reasons = ec.reasons) :=
  ⟨⟨rfl, rfl⟩, ⟨rfl, rfl⟩⟩

/-- Claim C7: `create` on an exchange-type name bound by no entry of the
registry fails with the distinct unknown-exchange-type error naming that
type (the registry itself is a value, unaffected by the failed lookup),
and after registering a factory `f` for name `x`, `create` on `x` returns
the connector built by `f` from the given owner and name. -/
theorem registry_create_spec {O C : Type} (reg : Registry O C) (x : String)
    (f : Factory O C) (owner : O) (name : String) (t : String)
    (h : ∀ pr ∈ reg, pr.1 ≠ t) :
    create (registerFactory reg x f) x owner name = Except.ok (f owner name) ∧
    create reg t owner name = Except.error (CreateError.unknownExchangeType t) := by
  constructor
  · simp [create, registerFactory, lookupFactory]
  · simp [create, lookupFactory_eq_none reg t h]

/-- Witness for claim C7 on the empty registry: registering a factory for
"mock" makes `create "mock"` succeed with the factory-built connector,
while `create "adx"` on the empty registry fails with the
unknown-exchange-type error. -/
theorem registry_create_spec_witness :
    (∀ pr ∈ ([] : Registry Unit String), pr.1 ≠ "adx") ∧
    (create (registerFactory ([] : Registry Unit String) "mock" (fun _ n => n))
        "mock" () "conn0" = Except.ok "conn0" ∧
      create ([] : Registry Unit String) "adx" () "conn0" =
        Except.error (CreateError.unknownExchangeType "adx")) :=
  ⟨by simp, registry_create_spec [] "mock" (fun _ n => n) () "conn0" "adx" (by simp)⟩

/-- Claim C8: each of the three filter decisions of a pipeline is a
deterministic function of its request, config and cached-info arguments:
identical arguments yield identical boolean results. -/
theorem filters_deterministic (I : Type) (p : FilterPipeline I)
    (r₁ r₂ : BidRequest) (c₁ c₂ : AgentConfig) (i₁ i₂ : Option I)
    (hr : r₁ = r₂) (hc : c₁ = c₂) (hi : i₁ = i₂) :
    p.bidRequestPreFilter r₁ c₁ i₁ = p.bidRequestPreFilter r₂ c₂ i₂ ∧
    p.bidRequestPostFilter r₁ c₁ i₁ = p.bidRequestPostFilter r₂ c₂ i₂ ∧
    p.bidRequestCreativeFilter r₁ c₁ i₁ = p.bidRequestCreativeFilter r₂ c₂ i₂ := by
  subst hr; subst hc; subst hi; exact ⟨rfl, rfl, rfl⟩

/-- Witness for claim C8 on the default pipeline at concrete arguments. -/
theorem filters_deterministic_witness :
    ((⟨1⟩ : BidRequest) = ⟨1⟩ ∧ (⟨2⟩ : AgentConfig) = ⟨2⟩ ∧
      (none : Option Unit) = none) ∧
    ((defaultFilterPipeline Unit).bidRequestPreFilter ⟨1⟩ ⟨2⟩ none =
        (defaultFilterPipeline Unit).bidRequestPreFilter ⟨1⟩ ⟨2⟩ none ∧
      (defaultFilterPipeline Unit).bidRequestPostFilter ⟨1⟩ ⟨2⟩ none =
        (defaultFilterPipeline Unit).bidRequestPostFilter ⟨1⟩ ⟨2⟩ none ∧
      (defaultFilterPipeline Unit).bidRequestCreativeFilter ⟨1⟩ ⟨2⟩ none =
        (defaultFilterPipeline Unit).bidRequestCreativeFilter ⟨1⟩ ⟨2⟩ none) :=
  ⟨⟨rfl, rfl, rfl⟩,
    filters_deterministic Unit (defaultFilterPipeline Unit) ⟨1⟩ ⟨1⟩ ⟨2⟩ ⟨2⟩
      none none rfl rfl rfl⟩

end RTBKIT
